import Mathlib

/-!
Verification of the Ralph TUI execution engine (src/commands/completion.ts,
engine section: PROMISE_COMPLETE_PATTERN, buildPrompt, ExecutionEngine).

The engine is embedded shallowly: the mutable `this.state` / retry map /
skipped set / event listeners become an explicit `Sys` record threaded
through pure Lean functions; each `emit` appends to an event list; calls
into the external tracker / session / log collaborators are recorded as
trace entries.  Wall-clock data (timestamps, durations, delay sleeps) has
no observable effect on the control flow beyond the `shouldStop` checks
and is not modelled.  External adapter calls that may reject (the agent
process and the template renderer) are modelled as `Except`-valued
oracles indexed by the iteration number of the attempt that performs the
call, mirroring that a JavaScript `await` either yields a value or throws.
-/

namespace RalphTui

/-- Status field of an agent adapter result (agent plugins return
status 'completed' or 'failed'). -/
inductive AgentStatus
  | completed
  | failed
deriving DecidableEq, Repr

/-- Result resolved by the agent adapter's execution handle: the fields of
the result object the engine reads (stdout, stderr, status, interrupted). -/
structure AgentResult where
  status : AgentStatus
  stdout : String
  stderr : String
  interrupted : Bool
deriving DecidableEq, Repr

/-- Task record handed to the engine by the tracker adapter; the engine
reads id, title and description. -/
structure TrackerTask where
  id : String
  title : String
  description : Option String
deriving DecidableEq, Repr

/-- Task status values the engine writes back to the tracker. -/
inductive TaskStatus
  | isOpen
  | inProgress
  | closed
deriving DecidableEq, Repr

/-- Whitespace class of the JavaScript regex escape backslash-s:
ASCII whitespace plus the Unicode space separators. -/
def isRegexSpace (c : Char) : Bool :=
  c = ' ' || c = '\t' || c = '\n' || c = '\r' || c.val = 11 || c.val = 12 ||
  c.val = 0xa0 || c.val = 0x1680 || (0x2000 ≤ c.val && c.val ≤ 0x200a) ||
  c.val = 0x2028 || c.val = 0x2029 || c.val = 0x202f || c.val = 0x205f ||
  c.val = 0x3000 || c.val = 0xfeff

/-- Match a literal pattern (given lowercase) case-insensitively against a
prefix of the input, returning the rest of the input on success.  This is
the semantics of the ASCII literals under the regex i-flag. -/
def matchLitCI : List Char → List Char → Option (List Char)
  | [], rest => some rest
  | _ :: _, [] => none
  | p :: ps, c :: cs => if c.toLower = p then matchLitCI ps cs else none

/-- Match the whole pattern of PROMISE_COMPLETE_PATTERN at the head of the
input.  The two whitespace-star gaps are matched greedily by dropWhile;
this is equivalent to the regex because the characters that follow each
gap (a letter and an angle bracket) are not whitespace. -/
def matchPromiseAt (cs : List Char) : Bool :=
  match matchLitCI "<promise>".toList cs with
  | none => false
  | some r1 =>
    match matchLitCI "complete".toList (r1.dropWhile isRegexSpace) with
    | none => false
    | some r2 =>
      (matchLitCI "</promise>".toList (r2.dropWhile isRegexSpace)).isSome

/-- Search for the pattern at every position of the input, as an
unanchored regex test does. -/
def searchPromise : List Char → Bool
  | [] => matchPromiseAt []
  | c :: cs => matchPromiseAt (c :: cs) || searchPromise cs

/-- PROMISE_COMPLETE_PATTERN.test: case-insensitive, whitespace-tolerant
search for the completion marker in the agent stdout. -/
def promiseCompleteTest (s : String) : Bool :=
  searchPromise s.toList

/-- Result record returned by the external renderPrompt capability.
Modelled from the spec: renderPrompt(task, config) returns
a record with success, optional prompt and optional error (the template
module itself is not under src/). -/
structure RenderResult where
  success : Bool
  prompt : Option String
  error : Option String
deriving DecidableEq, Repr

/-- Truthiness of the optional prompt string, as tested by the source's
`result.success && result.prompt` (an empty string is falsy). -/
def promptTruthy : Option String → Bool
  | none => false
  | some p => p ≠ ""

/-- Fallback prompt assembled by buildPrompt when template rendering
fails (source lines 132-149). -/
def fallbackPrompt (task : TrackerTask) : String :=
  let lines :=
    ["## Task", "**ID**: " ++ task.id, "**Title**: " ++ task.title] ++
    (match task.description with
     | some d => ["", "## Description", d]
     | none => []) ++
    ["", "## Instructions",
     "Complete the task described above. When finished, signal completion with:",
     "<promise>COMPLETE</promise>"]
  String.intercalate "\n" lines

/-- buildPrompt (source lines 121-150): use the rendered prompt when the
renderer reports success with a non-empty prompt, otherwise fall back. -/
def buildPrompt (render : RenderResult) (task : TrackerTask) : String :=
  if render.success && promptTruthy render.prompt then
    render.prompt.getD ""
  else
    fallbackPrompt task

/-- Lifecycle status values of the engine state machine. -/
inductive EngineStatus
  | idle
  | running
  | pausing
  | paused
  | stopping
deriving DecidableEq, Repr

/-- Status string used in the invalid-state error message thrown by
start(). -/
def EngineStatus.name : EngineStatus → String
  | .idle => "idle"
  | .running => "running"
  | .pausing => "pausing"
  | .paused => "paused"
  | .stopping => "stopping"

/-- Terminal status of one iteration attempt. -/
inductive IterationStatus
  | completed
  | failed
  | interrupted
deriving DecidableEq, Repr

/-- Immutable record produced once per iteration attempt (the fields of
the source's IterationResult object the control flow reads; timestamps
and durations are wall-clock data and are not modelled). -/
structure IterationResult where
  iteration : Nat
  status : IterationStatus
  task : TrackerTask
  agentResult : Option AgentResult
  taskCompleted : Bool
  promiseComplete : Bool
  error : Option String
deriving DecidableEq, Repr

/-- Reasons carried by engine:stopped events. -/
inductive StopReason
  | max_iterations
  | completed
  | no_tasks
  | error
  | interrupted
deriving DecidableEq, Repr

/-- Action field of iteration:failed events. -/
inductive FailAction
  | retry
  | skip
  | abort
deriving DecidableEq, Repr

/-- Stream identity of agent:output events. -/
inductive OutputStream
  | stdout
  | stderr
deriving DecidableEq, Repr

/-- Engine event union, one constructor per emit call site in the source,
carrying the non-timestamp payload fields. -/
inductive EngineEvent
  | engine_started (totalTasks : Nat)
  | engine_paused (currentIteration : Nat)
  | engine_resumed (fromIteration : Nat)
  | engine_stopped (reason : StopReason) (totalIterations : Nat) (tasksCompleted : Nat)
  | all_complete (totalCompleted : Nat) (totalIterations : Nat)
  | iteration_started (iteration : Nat) (task : TrackerTask)
  | task_selected (task : TrackerTask) (iteration : Nat)
  | agent_output (stream : OutputStream) (data : String) (iteration : Nat)
  | task_completed (task : TrackerTask) (iteration : Nat)
  | iteration_completed (result : IterationResult)
  | iteration_failed (iteration : Nat) (error : String) (task : TrackerTask) (action : FailAction)
  | iteration_retrying (iteration : Nat) (retryAttempt : Nat) (maxRetries : Nat)
      (task : TrackerTask) (previousError : String) (delayMs : Nat)
  | iteration_skipped (iteration : Nat) (task : TrackerTask) (reason : String)
deriving DecidableEq, Repr

/-- Mutating calls the engine makes on the tracker adapter, recorded as a
trace. -/
inductive TrackerCall
  | updateTaskStatus (id : String) (status : TaskStatus)
  | completeTask (id : String) (reason : String)
deriving DecidableEq, Repr

/-- Write-only calls to the session and log collaborators, recorded as a
trace. -/
inductive SessionCall
  | updateSessionIteration (iteration : Nat) (tasksCompleted : Nat)
  | updateSessionStatus (status : String)
  | saveIterationLog (iteration : Nat)
deriving DecidableEq, Repr

/-- The engine's `this.state` record (timestamps reduced to a set flag). -/
structure EngineState where
  status : EngineStatus
  currentIteration : Nat
  currentTask : Option TrackerTask
  totalTasks : Nat
  tasksCompleted : Nat
  iterations : List IterationResult
  startedAt : Bool
  currentOutput : String
  currentStderr : String
deriving DecidableEq, Repr

/-- Error handling strategy values from the configuration. -/
inductive ErrorHandlingStrategy
  | retry
  | skip
  | abort
deriving DecidableEq, Repr

/-- Error handling section of the configuration. -/
structure ErrorHandlingConfig where
  strategy : ErrorHandlingStrategy
  maxRetries : Nat
  retryDelayMs : Nat
deriving DecidableEq, Repr

/-- The configuration fields the engine control flow reads. -/
structure RalphConfig where
  maxIterations : Nat
  iterationDelay : Nat
  errorHandling : ErrorHandlingConfig
deriving DecidableEq, Repr

/-- Tracker adapter capability, as a record of operations over an opaque
tracker state type: the filtered task listing, the readiness predicate,
the backlog-complete predicate and the two mutations the engine calls.
getTasks stands for the source call getTasks with the open/in_progress
status filter. -/
structure TrackerModel (τ : Type) where
  getTasks : τ → List TrackerTask
  isTaskReady : τ → String → Bool
  isComplete : τ → Bool
  updateTaskStatus : τ → String → TaskStatus → τ
  completeTask : τ → String → String → τ

/-- Whole-engine instantaneous state: `this.state` plus the private
fields, the external tracker state, and the recorded traces.  `tick`
counts the asynchronous suspension points at which an external operator
call may be interleaved. -/
structure Sys (τ : Type) where
  state : EngineState
  agentBound : Bool
  trackerBound : Bool
  tracker : τ
  shouldStop : Bool
  currentExecution : Bool
  interruptCalls : Nat
  retryCountMap : List (String × Nat)
  skippedTasks : List String
  events : List EngineEvent
  trackerCalls : List TrackerCall
  sessionCalls : List SessionCall
  tick : Nat

/-- Emit an event: listeners only observe events and their exceptions are
swallowed, so emission is exactly an append to the event trace. -/
def emit {τ : Type} (e : EngineEvent) (s : Sys τ) : Sys τ :=
  { s with events := s.events ++ [e] }

/-- JavaScript Map.get on the retry-count map. -/
def mapGet (m : List (String × Nat)) (k : String) : Option Nat :=
  (m.find? (fun p => p.1 = k)).map (fun p => p.2)

/-- JavaScript Map.set on the retry-count map. -/
def mapSet (m : List (String × Nat)) (k : String) (v : Nat) : List (String × Nat) :=
  (m.filter (fun p => p.1 ≠ k)) ++ [(k, v)]

/-- JavaScript Map.delete on the retry-count map. -/
def mapDelete (m : List (String × Nat)) (k : String) : List (String × Nat) :=
  m.filter (fun p => p.1 ≠ k)

/-- JavaScript Set.add on the skipped-task set. -/
def setAdd (s : List String) (x : String) : List String :=
  if x ∈ s then s else s ++ [x]

/-- pause() (source lines 717-725): flip running to pausing; a no-op from
any other status; emits nothing. -/
def pause {τ : Type} (s : Sys τ) : Sys τ :=
  if s.state.status ≠ .running then s
  else { s with state := { s.state with status := .pausing } }

/-- resume() (source lines 731-745): cancel a pending pause from pausing,
resume from paused, otherwise a no-op; emits nothing. -/
def resume {τ : Type} (s : Sys τ) : Sys τ :=
  if s.state.status = .pausing then
    { s with state := { s.state with status := .running } }
  else if s.state.status ≠ .paused then s
  else { s with state := { s.state with status := .running } }

/-- stop() (source lines 692-711): set the stop flag and stopping status,
interrupt the current execution when one is in flight, persist the
interrupted session status, and emit engine:stopped with reason
interrupted. -/
def stop {τ : Type} (s : Sys τ) : Sys τ :=
  let s := { s with shouldStop := true,
                    state := { s.state with status := .stopping } }
  let s := if s.currentExecution then
      { s with interruptCalls := s.interruptCalls + 1 }
    else s
  let s := { s with sessionCalls := s.sessionCalls ++ [.updateSessionStatus "interrupted"] }
  emit (.engine_stopped .interrupted s.state.currentIteration s.state.tasksCompleted) s

/-- Environment of one engine run: the tracker capability, the
configuration, and the outcome oracles for the two fallible external
calls an attempt makes.  Both oracles are indexed by the iteration
number of the attempt performing the call; an `Except.error` value
models the JavaScript call throwing / its promise rejecting. -/
structure Env (τ : Type) where
  T : TrackerModel τ
  config : RalphConfig
  agent : Nat → Except String AgentResult
  render : Nat → Except String RenderResult

/-- runIteration (source lines 537-687), one iteration attempt.  The
returned Except is the JavaScript control flow of the async method: ok
is a normal return, error is an exception propagating to the caller.
Note the order of the source: the counter increment, the two events, the
tracker status update and buildPrompt all run before the try block, so a
renderPrompt exception propagates (and skips the finally clause, leaving
currentTask set), while an exception from the agent execute call or its
awaited promise is caught and becomes a failed result.  The streaming
callbacks are modelled as delivering each non-empty stream as a single
chunk before the promise resolves.  The currentExecution handle is set
immediately before and cleared immediately after the await, hence
unchanged across the whole step. -/
def runIteration {τ : Type} (E : Env τ) (task : TrackerTask) (s : Sys τ) :
    Sys τ × Except String IterationResult :=
  let s := { s with state := { s.state with
      currentIteration := s.state.currentIteration + 1,
      currentTask := some task,
      currentOutput := "", currentStderr := "" } }
  let iteration := s.state.currentIteration
  let s := emit (.iteration_started iteration task) s
  let s := emit (.task_selected task iteration) s
  let s := { s with tracker := E.T.updateTaskStatus s.tracker task.id .inProgress,
                    trackerCalls := s.trackerCalls ++ [.updateTaskStatus task.id .inProgress] }
  match E.render iteration with
  | .error msg => (s, .error msg)
  | .ok rr =>
    let _prompt := buildPrompt rr task
    match E.agent iteration with
    | .error msg =>
        ({ s with state := { s.state with currentTask := none } },
         .ok { iteration, status := .failed, task, agentResult := none,
               taskCompleted := false, promiseComplete := false, error := some msg })
    | .ok a =>
        let s := if a.stdout = "" then s else
          emit (.agent_output .stdout a.stdout iteration)
            { s with state := { s.state with currentOutput := s.state.currentOutput ++ a.stdout } }
        let s := if a.stderr = "" then s else
          emit (.agent_output .stderr a.stderr iteration)
            { s with state := { s.state with currentStderr := s.state.currentStderr ++ a.stderr } }
        let promiseComplete := promiseCompleteTest a.stdout
        let taskCompleted := promiseComplete || decide (a.status = AgentStatus.completed)
        let s := if taskCompleted then
            emit (.task_completed task iteration)
              { s with tracker := E.T.completeTask s.tracker task.id "Completed by agent",
                       trackerCalls := s.trackerCalls ++ [.completeTask task.id "Completed by agent"] }
          else s
        let status : IterationStatus :=
          if a.interrupted then .interrupted
          else if a.status = .failed then .failed
          else .completed
        let result : IterationResult :=
          { iteration, status, task, agentResult := some a,
            taskCompleted, promiseComplete, error := none }
        let s := { s with sessionCalls := s.sessionCalls ++ [.saveIterationLog iteration] }
        let s := emit (.iteration_completed result) s
        ({ s with state := { s.state with currentTask := none } }, .ok result)

/-- Body of runIterationWithErrorHandling (source lines 414-519).  The
source's recursive self-call (the retry re-entry) is the `recur`
parameter, which also receives the current attempt's result so that the
fuel wrapper below can cut the recursion off.  The retry delay sleeps
without observable effect, so the two shouldStop checks around it
collapse into one; the emitSkipEvent helper (source lines 524-532) is
inlined as the iteration:skipped emission. -/
def wehStep {τ : Type} (E : Env τ) (task : TrackerTask)
    (recur : Sys τ → IterationResult → Sys τ × Except String IterationResult)
    (s0 : Sys τ) : Sys τ × Except String IterationResult :=
  match runIteration E task s0 with
  | (s, .error msg) => (s, .error msg)
  | (s, .ok result) =>
    let s := { s with state := { s.state with iterations := s.state.iterations ++ [result] } }
    if result.status ≠ .failed then
      if result.taskCompleted then
        ({ s with state := { s.state with tasksCompleted := s.state.tasksCompleted + 1 },
                  retryCountMap := mapDelete s.retryCountMap task.id }, .ok result)
      else (s, .ok result)
    else
      let errorMessage := result.error.getD "Unknown error"
      match E.config.errorHandling.strategy with
      | .retry =>
        let currentRetries := (mapGet s.retryCountMap task.id).getD 0
        if currentRetries < E.config.errorHandling.maxRetries then
          let s := emit (.iteration_failed s.state.currentIteration errorMessage task .retry) s
          let s := emit (.iteration_retrying s.state.currentIteration (currentRetries + 1)
                    E.config.errorHandling.maxRetries task errorMessage
                    E.config.errorHandling.retryDelayMs) s
          let s := { s with retryCountMap := mapSet s.retryCountMap task.id (currentRetries + 1) }
          if s.shouldStop then (s, .ok result)
          else recur s result
        else
          let skipReason := "Max retries (" ++ toString E.config.errorHandling.maxRetries
              ++ ") exceeded: " ++ errorMessage
          let s := emit (.iteration_failed s.state.currentIteration skipReason task .skip) s
          let s := emit (.iteration_skipped s.state.currentIteration task skipReason) s
          ({ s with skippedTasks := setAdd s.skippedTasks task.id,
                    retryCountMap := mapDelete s.retryCountMap task.id }, .ok result)
      | .skip =>
        let s := emit (.iteration_failed s.state.currentIteration errorMessage task .skip) s
        let s := emit (.iteration_skipped s.state.currentIteration task errorMessage) s
        ({ s with skippedTasks := setAdd s.skippedTasks task.id }, .ok result)
      | .abort =>
        (emit (.iteration_failed s.state.currentIteration errorMessage task .abort) s, .ok result)

/-- runIterationWithErrorHandling: the recursive retry re-entry is
bounded in the source by the retry-count map; the fuel argument is a
totality device whose exhaustion (returning the current failed result)
is unreachable whenever fuel is at least maxRetries minus the task's
current retry count.  The call site in the loop passes maxRetries + 1. -/
def runIterationWEH {τ : Type} (E : Env τ) (task : TrackerTask) (fuel : Nat) :
    Sys τ → Sys τ × Except String IterationResult :=
  Nat.rec (wehStep E task (fun s result => (s, .ok result)))
    (fun _f ih => wehStep E task (fun s _ => ih s)) fuel

/-- Scan of the tracker-returned task list performed by
getNextAvailableTask: skip members of the skipped set, return the first
ready task. -/
def findAvailable (skipped : List String) (ready : String → Bool) :
    List TrackerTask → Option TrackerTask
  | [] => none
  | t :: ts =>
    if t.id ∈ skipped then findAvailable skipped ready ts
    else if ready t.id then some t
    else findAvailable skipped ready ts

/-- getNextAvailableTask (source lines 392-409). -/
def getNextAvailableTask {τ : Type} (T : TrackerModel τ) (s : Sys τ) : Option TrackerTask :=
  findAvailable s.skippedTasks (T.isTaskReady s.tracker) (T.getTasks s.tracker)

/-- External operator call arriving at an asynchronous suspension
point. -/
inductive ExtCall
  | pauseCall
  | resumeCall
  | stopCall
  | noCall
deriving DecidableEq, Repr

/-- Interleaving schedule: which external call (if any) arrives at the
n-th suspension point of the run. -/
def Schedule : Type := Nat → ExtCall

/-- Apply one scheduled external call to the engine. -/
def applyExt {τ : Type} : ExtCall → Sys τ → Sys τ
  | .pauseCall, s => pause s
  | .resumeCall, s => resume s
  | .stopCall, s => stop s
  | .noCall, s => s

/-- Consume one suspension point: apply whatever external call the
schedule delivers there. -/
def consumeTick {τ : Type} (sched : Schedule) (s : Sys τ) : Sys τ :=
  applyExt (sched s.tick) { s with tick := s.tick + 1 }

/-- The paused polling wait (source lines 296-298): while the status is
paused and stop has not been requested, sleep and let an external call
arrive.  Fuel bounds the number of polls a theorem examines; an operator
that never resumes simply keeps the engine waiting. -/
def pollPaused {τ : Type} (sched : Schedule) (fuel : Nat) : Sys τ → Sys τ :=
  Nat.rec (fun s => s)
    (fun _f ih s =>
      if s.state.status = .paused ∧ s.shouldStop = false then
        ih (consumeTick sched s)
      else s) fuel

/-- The pause checkpoint at the top of the loop body (source lines
286-311): when pausing, flip to paused, emit the paused event, wait, and
afterwards either break out of the loop (inl, stop requested while
waiting) or emit the resumed event and fall through (inr). -/
def pauseGate {τ : Type} (sched : Schedule) (fuel : Nat) (s : Sys τ) : Sys τ ⊕ Sys τ :=
  if s.state.status = .pausing then
    let s := { s with state := { s.state with status := .paused } }
    let s := emit (.engine_paused s.state.currentIteration) s
    let s := pollPaused sched fuel s
    if s.shouldStop then .inl s
    else .inr (emit (.engine_resumed s.state.currentIteration) s)
  else .inr s

/-- One pass of runLoop's while body (source lines 284-387); `recur` is
the jump back to the top of the loop.  One suspension point is consumed
just before each attempt: an external call that in the source arrives at
any await inside the attempt behaves identically to one arriving
immediately before it, because the attempt never reads the lifecycle
status, and nothing inside an attempt changes shouldStop; a second point
is consumed by the inter-iteration delay when it is configured. -/
def loopStep {τ : Type} (E : Env τ) (sched : Schedule) (pollFuel : Nat)
    (recur : Sys τ → Sys τ × Except String Unit) (s : Sys τ) :
    Sys τ × Except String Unit :=
  if s.shouldStop then (s, .ok ())
  else
    match pauseGate sched pollFuel s with
    | .inl s => (s, .ok ())
    | .inr s =>
      if 0 < E.config.maxIterations ∧ E.config.maxIterations ≤ s.state.currentIteration then
        (emit (.engine_stopped .max_iterations s.state.currentIteration s.state.tasksCompleted) s,
         .ok ())
      else if E.T.isComplete s.tracker then
        let s := emit (.all_complete s.state.tasksCompleted s.state.currentIteration) s
        (emit (.engine_stopped .completed s.state.currentIteration s.state.tasksCompleted) s,
         .ok ())
      else
        match getNextAvailableTask E.T s with
        | none =>
          (emit (.engine_stopped .no_tasks s.state.currentIteration s.state.tasksCompleted) s,
           .ok ())
        | some task =>
          let s := consumeTick sched s
          match runIterationWEH E task (E.config.errorHandling.maxRetries + 1) s with
          | (s, .error msg) => (s, .error msg)
          | (s, .ok result) =>
            if result.status = .failed ∧ E.config.errorHandling.strategy = .abort then
              (emit (.engine_stopped .error s.state.currentIteration s.state.tasksCompleted) s,
               .ok ())
            else
              let s := { s with sessionCalls := s.sessionCalls ++
                  [.updateSessionIteration s.state.currentIteration s.state.tasksCompleted] }
              let s := if 0 < E.config.iterationDelay ∧ s.shouldStop = false then
                  consumeTick sched s
                else s
              recur s

/-- runLoop assembled from loopStep: fuel bounds the number of loop
cycles (and paused polls) a theorem examines; exhausted fuel just stops
unwinding the loop. -/
def runLoop {τ : Type} (E : Env τ) (sched : Schedule) (fuel : Nat) :
    Sys τ → Sys τ × Except String Unit :=
  Nat.rec (fun s => (s, .ok ()))
    (fun f ih => loopStep E sched f ih) fuel

/-- start (source lines 254-279): fail fast unless idle and initialized,
then flip to running, emit engine:started, run the loop, and finally
reset the status to idle whether the loop returned or threw. -/
def start {τ : Type} (E : Env τ) (sched : Schedule) (fuel : Nat) (s : Sys τ) :
    Sys τ × Except String Unit :=
  if s.state.status ≠ .idle then
    (s, .error ("Cannot start engine in " ++ s.state.status.name ++ " state"))
  else if ¬(s.agentBound = true ∧ s.trackerBound = true) then
    (s, .error "Engine not initialized")
  else
    let s := { s with state := { s.state with status := .running, startedAt := true },
                      shouldStop := false }
    let s := emit (.engine_started s.state.totalTasks) s
    match runLoop E sched fuel s with
    | (s', r) => ({ s' with state := { s'.state with status := .idle } }, r)

/-- Task record of the concrete tracker instance used in scenario runs. -/
structure SimpleTask where
  id : String
  title : String
  status : TaskStatus
  deps : List String
deriving DecidableEq, Repr

/-- Modelled from the spec: a minimal tracker adapter satisfying the
tracker capability of spec section 6 (the repository's tracker plugins
are not under src/): task listing filtered to open or in-progress,
readiness as all dependencies closed, completeness as all tasks closed,
and the two status mutations.  Used only to instantiate concrete
scenario runs of the engine. -/
def simpleTracker : TrackerModel (List SimpleTask) where
  getTasks ts :=
    (ts.filter (fun t => decide (t.status ≠ TaskStatus.closed))).map
      (fun t => { id := t.id, title := t.title, description := none })
  isTaskReady ts id :=
    match ts.find? (fun t => t.id == id) with
    | none => false
    | some t =>
      t.deps.all (fun d =>
        match ts.find? (fun u => u.id == d) with
        | some u => decide (u.status = TaskStatus.closed)
        | none => true)
  isComplete ts := ts.all (fun t => decide (t.status = TaskStatus.closed))
  updateTaskStatus ts id st := ts.map (fun t => if t.id == id then { t with status := st } else t)
  completeTask ts id _reason := ts.map (fun t => if t.id == id then { t with status := TaskStatus.closed } else t)

/-- Engine state as built by the constructor (source lines 170-180):
idle, iteration counter 0, empty history and buffers. -/
def constructorState : EngineState :=
  { status := .idle, currentIteration := 0, currentTask := none,
    totalTasks := 0, tasksCompleted := 0, iterations := [],
    startedAt := false, currentOutput := "", currentStderr := "" }

/-- Schedule on which no external operator call ever arrives. -/
def schedNone : Schedule := fun _ => ExtCall.noCall

/-- Concrete task fixture. -/
def task0 : TrackerTask := { id := "T", title := "Task T", description := none }

/-- Concrete tracker task fixture backing task0. -/
def simpleT0 : SimpleTask := { id := "T", title := "Task T", status := .isOpen, deps := [] }

/-- Render oracle that always succeeds with a fixed prompt. -/
def renderOkOracle : Nat → Except String RenderResult :=
  fun _ => .ok { success := true, prompt := some "prompt", error := none }

/-- Agent oracle that always resolves with a failed, uninterrupted,
markerless result. -/
def agentFailOracle : Nat → Except String AgentResult :=
  fun _ => .ok { status := .failed, stdout := "", stderr := "", interrupted := false }

/-- Configuration fixture: retry strategy with maxRetries 2, no caps and
no delays. -/
def cfgRetry2 : RalphConfig :=
  { maxIterations := 0, iterationDelay := 0,
    errorHandling := { strategy := .retry, maxRetries := 2, retryDelayMs := 0 } }

/-- Environment fixture for the always-failing retry scenario. -/
def envRetry2 : Env (List SimpleTask) :=
  { T := simpleTracker, config := cfgRetry2, agent := agentFailOracle, render := renderOkOracle }

/-- Fresh initialized engine over a given concrete tracker state. -/
def sysInit (tr : List SimpleTask) : Sys (List SimpleTask) :=
  { state := { status := .idle, currentIteration := 0, currentTask := none,
               totalTasks := 1, tasksCompleted := 0, iterations := [],
               startedAt := false, currentOutput := "", currentStderr := "" },
    agentBound := true, trackerBound := true, tracker := tr,
    shouldStop := false, currentExecution := false, interruptCalls := 0,
    retryCountMap := [], skippedTasks := [], events := [],
    trackerCalls := [], sessionCalls := [], tick := 0 }

/-- Failing attempt condition on the agent oracle at attempt n: the call
throws, or resolves with an uninterrupted failed result (in either case
the attempt produces an IterationResult with status failed). -/
def FailsAt {τ : Type} (E : Env τ) (n : Nat) : Prop :=
  match E.agent n with
  | .error _ => True
  | .ok a => a.interrupted = false ∧ a.status = AgentStatus.failed

/-- Configuration fixture: abort strategy, no caps and no delays. -/
def cfgAbort : RalphConfig :=
  { maxIterations := 0, iterationDelay := 0,
    errorHandling := { strategy := .abort, maxRetries := 2, retryDelayMs := 0 } }

/-- Environment fixture for the abort scenario: always-failing agent
under the abort strategy. -/
def envAbort : Env (List SimpleTask) :=
  { T := simpleTracker, config := cfgAbort, agent := agentFailOracle,
    render := renderOkOracle }

/-- Recognizer for iteration:retrying events. -/
def isRetryingEv : EngineEvent → Bool
  | .iteration_retrying _ _ _ _ _ _ => true
  | _ => false

/-- Recognizer for iteration:skipped events. -/
def isSkippedEv : EngineEvent → Bool
  | .iteration_skipped _ _ _ => true
  | _ => false

/-- Recognizer for iteration:failed events carrying a given action. -/
def isFailedEv (a : FailAction) : EngineEvent → Bool
  | .iteration_failed _ _ _ a2 => decide (a = a2)
  | _ => false

/-- Recognizer for iteration:started events. -/
def isStartedEv : EngineEvent → Bool
  | .iteration_started _ _ => true
  | _ => false

/-- Recognizer for engine:paused events. -/
def isPausedEv : EngineEvent → Bool
  | .engine_paused _ => true
  | _ => false

/-- Recognizer for iteration:completed events. -/
def isCompletedEv : EngineEvent → Bool
  | .iteration_completed _ => true
  | _ => false

/-- Recognizer for engine:stopped events. -/
def isStoppedEv : EngineEvent → Bool
  | .engine_stopped _ _ _ => true
  | _ => false

/-- Recognizer for engine:resumed events. -/
def isResumedEv : EngineEvent → Bool
  | .engine_resumed _ => true
  | _ => false

/-- Conclusion bundle of the retry-exhaustion analysis: starting with k
consecutive failures already recorded for the task, one wrapper call
performs maxRetries - k + 1 attempts, emits maxRetries - k retrying
events, exactly one skipped and one failed-skip event, adds the task id
to the skipped set, deletes its retry counter, completes no task, and
returns a failed result. -/
def RetryExhaustSpec {τ : Type} (E : Env τ) (task : TrackerTask) (fuel : Nat)
    (s : Sys τ) (k : Nat) : Prop :=
  (runIterationWEH E task fuel s).1.state.currentIteration =
    s.state.currentIteration + (E.config.errorHandling.maxRetries - k + 1) ∧
  (runIterationWEH E task fuel s).1.events.countP isRetryingEv =
    s.events.countP isRetryingEv + (E.config.errorHandling.maxRetries - k) ∧
  (runIterationWEH E task fuel s).1.events.countP isSkippedEv =
    s.events.countP isSkippedEv + 1 ∧
  (runIterationWEH E task fuel s).1.events.countP (isFailedEv .skip) =
    s.events.countP (isFailedEv .skip) + 1 ∧
  task.id ∈ (runIterationWEH E task fuel s).1.skippedTasks ∧
  mapGet (runIterationWEH E task fuel s).1.retryCountMap task.id = none ∧
  (runIterationWEH E task fuel s).1.state.iterations.length =
    s.state.iterations.length + (E.config.errorHandling.maxRetries - k + 1) ∧
  (runIterationWEH E task fuel s).1.state.tasksCompleted = s.state.tasksCompleted ∧
  ∃ res : IterationResult, (runIterationWEH E task fuel s).2 = .ok res ∧
    res.status = .failed

/-- Second concrete tracker task fixture. -/
def simpleU : SimpleTask := { id := "U", title := "Task U", status := .isOpen, deps := [] }

/-- Task record fixture backing simpleU. -/
def taskU : TrackerTask := { id := "U", title := "Task U", description := none }

/-- Engine fixture with two tracked tasks where task T is already in the
skipped set. -/
def sysTwoSkipped : Sys (List SimpleTask) :=
  { sysInit [simpleT0, simpleU] with skippedTasks := ["T"] }

/-- RenderResult fixture: a successful render. -/
def rrOk : RenderResult := { success := true, prompt := some "prompt", error := none }

/-- Engine fixture already running on the one-task tracker (as after
start() has flipped the freshly initialized engine to running). -/
def sysRun : Sys (List SimpleTask) :=
  { sysInit [simpleT0] with state := { (sysInit [simpleT0]).state with status := .running } }

/-- Agent result fixture: a failed, uninterrupted run whose stdout
nevertheless carries the completion marker. -/
def aMarkerFailed : AgentResult :=
  { status := .failed, stdout := "done <promise>COMPLETE</promise>", stderr := "",
    interrupted := false }

/-- Agent result fixture: an interrupted run whose stdout carries the
completion marker. -/
def aMarkerInterrupted : AgentResult :=
  { status := .failed, stdout := "partial <promise> COMPLETE </promise>", stderr := "err",
    interrupted := true }

/-- Environment fixture whose agent always resolves with
aMarkerFailed. -/
def envMarkerFailed : Env (List SimpleTask) :=
  { T := simpleTracker, config := cfgRetry2, agent := fun _ => .ok aMarkerFailed,
    render := fun _ => .ok rrOk }

/-- Environment fixture whose agent always resolves with
aMarkerInterrupted. -/
def envMarkerInterrupted : Env (List SimpleTask) :=
  { T := simpleTracker, config := cfgRetry2, agent := fun _ => .ok aMarkerInterrupted,
    render := fun _ => .ok rrOk }

/-- Engine fixture in the pausing state (a pause request is pending). -/
def sysPausing : Sys (List SimpleTask) :=
  { sysInit [simpleT0] with state := { (sysInit [simpleT0]).state with status := .pausing } }

/-- Agent result fixture: a clean successful run. -/
def aCompleted : AgentResult :=
  { status := .completed, stdout := "", stderr := "", interrupted := false }

/-- Environment fixture whose agent always succeeds cleanly. -/
def envCompleted : Env (List SimpleTask) :=
  { T := simpleTracker, config := cfgRetry2, agent := fun _ => .ok aCompleted,
    render := fun _ => .ok rrOk }

/-- Schedule fixture: a pause request at the first suspension point (the
in-flight attempt) and a stop request at the second (the paused poll). -/
def schedPauseThenStop : Schedule :=
  fun t => if t = 0 then .pauseCall else if t = 1 then .stopCall else .noCall

/-- Fresh engine fixture on which initialize() never bound an agent. -/
def sysNoAgent : Sys (List SimpleTask) :=
  { sysInit [simpleT0] with agentBound := false }

/-- Environment fixture whose render oracle always throws. -/
def envRenderThrows : Env (List SimpleTask) :=
  { T := simpleTracker, config := cfgRetry2, agent := agentFailOracle,
    render := fun _ => .error "template exploded" }

/-- Environment fixture whose agent invocation always throws. -/
def envAgentThrows : Env (List SimpleTask) :=
  { T := simpleTracker, config := cfgRetry2, agent := fun _ => .error "spawn ENOENT",
    render := fun _ => .ok rrOk }

example : promiseCompleteTest "abc <promise>COMPLETE</promise> xyz" = true := by decide
example : promiseCompleteTest "abc <Promise>  complete\n</PROMISE>" = true := by decide
example : promiseCompleteTest "no marker here" = false := by decide
example : promiseCompleteTest "<promise>COMPLETE но</promise>" = false := by decide

/-- C1: for every finished agent result, the attempt's taskCompleted flag
is exactly the inclusive OR of the case-insensitive whitespace-tolerant
marker test on the raw stdout and the agent status being completed; in
particular a failed agent result whose stdout carries the marker still
yields taskCompleted = true. -/
theorem c1_taskCompleted_inclusive_or {τ : Type} (E : Env τ) (task : TrackerTask)
    (s : Sys τ) (rr : RenderResult) (a : AgentResult)
    (hr : E.render (s.state.currentIteration + 1) = .ok rr)
    (ha : E.agent (s.state.currentIteration + 1) = .ok a) :
    ∃ res : IterationResult,
      (runIteration E task s).2 = .ok res ∧
      res.taskCompleted =
        (promiseCompleteTest a.stdout || decide (a.status = AgentStatus.completed)) ∧
      (a.status = AgentStatus.failed → promiseCompleteTest a.stdout = true →
        res.taskCompleted = true) := by
  refine ⟨{ iteration := s.state.currentIteration + 1,
            status := if a.interrupted then .interrupted
                      else if a.status = AgentStatus.failed then .failed else .completed,
            task := task, agentResult := some a,
            taskCompleted := promiseCompleteTest a.stdout ||
              decide (a.status = AgentStatus.completed),
            promiseComplete := promiseCompleteTest a.stdout, error := none }, ?_, rfl, ?_⟩
  · simp [runIteration, emit, hr, ha]
  · intro _ h2
    simp [h2]

/-- Witness for C1 at a concrete input: agent status failed, stdout
containing the marker, so taskCompleted is true. -/
theorem c1_witness :
    ∃ res : IterationResult,
      (runIteration envMarkerFailed task0 sysRun).2 = .ok res ∧
      res.taskCompleted =
        (promiseCompleteTest aMarkerFailed.stdout ||
          decide (aMarkerFailed.status = AgentStatus.completed)) ∧
      (aMarkerFailed.status = AgentStatus.failed →
        promiseCompleteTest aMarkerFailed.stdout = true →
        res.taskCompleted = true) :=
  c1_taskCompleted_inclusive_or envMarkerFailed task0 sysRun rrOk aMarkerFailed rfl rfl

/-- C9: an interrupted agent run yields iteration status interrupted, but
task completion is judged independently: when the stdout carries the
marker (or the status is completed), taskCompleted is true, the
tracker's completeTask is called, and a task:completed event is emitted
for that interrupted iteration. -/
theorem c9_interrupted_still_completes {τ : Type} (E : Env τ) (task : TrackerTask)
    (s : Sys τ) (rr : RenderResult) (a : AgentResult)
    (hr : E.render (s.state.currentIteration + 1) = .ok rr)
    (ha : E.agent (s.state.currentIteration + 1) = .ok a)
    (hint : a.interrupted = true)
    (hm : (promiseCompleteTest a.stdout || decide (a.status = AgentStatus.completed)) = true) :
    ∃ res : IterationResult,
      (runIteration E task s).2 = .ok res ∧
      res.status = .interrupted ∧
      res.taskCompleted = true ∧
      TrackerCall.completeTask task.id "Completed by agent" ∈
        (runIteration E task s).1.trackerCalls ∧
      EngineEvent.task_completed task (s.state.currentIteration + 1) ∈
        (runIteration E task s).1.events := by
  refine ⟨{ iteration := s.state.currentIteration + 1,
            status := if a.interrupted then .interrupted
                      else if a.status = AgentStatus.failed then .failed else .completed,
            task := task, agentResult := some a,
            taskCompleted := promiseCompleteTest a.stdout ||
              decide (a.status = AgentStatus.completed),
            promiseComplete := promiseCompleteTest a.stdout, error := none }, ?_, ?_, hm, ?_, ?_⟩
  · simp [runIteration, emit, hr, ha]
  · simp [hint]
  · simp [runIteration, emit, hr, ha, hm]
  · simp [runIteration, emit, hr, ha, hm]

/-- Witness for C9 at a concrete input: interrupted agent run with the
marker in stdout. -/
theorem c9_witness :
    ∃ res : IterationResult,
      (runIteration envMarkerInterrupted task0 sysRun).2 = .ok res ∧
      res.status = .interrupted ∧
      res.taskCompleted = true ∧
      TrackerCall.completeTask task0.id "Completed by agent" ∈
        (runIteration envMarkerInterrupted task0 sysRun).1.trackerCalls ∧
      EngineEvent.task_completed task0 (sysRun.state.currentIteration + 1) ∈
        (runIteration envMarkerInterrupted task0 sysRun).1.events :=
  c9_interrupted_still_completes envMarkerInterrupted task0 sysRun rrOk aMarkerInterrupted
    rfl rfl rfl (by decide)

/-- C3 counterexample: an exception thrown while building the prompt (a
throwing renderPrompt) is NOT caught inside the attempt: buildPrompt runs
before the try block, so runIteration propagates the exception instead of
returning a failed IterationResult, and it escapes the attempt wrapper to
the main loop. -/
theorem c3_counterexample :
    (runIteration envRenderThrows task0 sysRun).2 = .error "template exploded" ∧
    (runIterationWEH envRenderThrows task0 3 sysRun).2 = .error "template exploded" := by
  constructor <;> rfl

/-- C3 amended: any exception thrown during agent-process invocation (the
execute call or awaiting its promise) is caught inside the attempt and
converted into an IterationResult with status failed carrying the error
message, never re-thrown; an exception during prompt building, by
contrast, occurs before the try block and propagates (see the
counterexample). -/
theorem c3_agent_exception_contained {τ : Type} (E : Env τ) (task : TrackerTask)
    (s : Sys τ) (rr : RenderResult) (msg : String)
    (hr : E.render (s.state.currentIteration + 1) = .ok rr)
    (ha : E.agent (s.state.currentIteration + 1) = .error msg) :
    (runIteration E task s).2 = .ok
      { iteration := s.state.currentIteration + 1, status := .failed, task := task,
        agentResult := none, taskCompleted := false, promiseComplete := false,
        error := some msg } := by
  simp [runIteration, emit, hr, ha]

/-- Witness for the amended C3 at a concrete input: the agent throws and
the attempt returns a failed result carrying the message. -/
theorem c3_witness :
    (runIteration envAgentThrows task0 sysRun).2 = .ok
      { iteration := sysRun.state.currentIteration + 1, status := .failed, task := task0,
        agentResult := none, taskCompleted := false, promiseComplete := false,
        error := some "spawn ENOENT" } :=
  c3_agent_exception_contained envAgentThrows task0 sysRun rrOk "spawn ENOENT" rfl rfl

theorem weh_zero {τ : Type} (E : Env τ) (task : TrackerTask) :
    runIterationWEH E task 0 = wehStep E task (fun s result => (s, .ok result)) := rfl

theorem weh_succ {τ : Type} (E : Env τ) (task : TrackerTask) (fuel : Nat) :
    runIterationWEH E task (fuel + 1) =
      wehStep E task (fun s _ => runIterationWEH E task fuel s) := rfl

theorem runLoop_succ {τ : Type} (E : Env τ) (sched : Schedule) (fuel : Nat) :
    runLoop E sched (fuel + 1) = loopStep E sched fuel (runLoop E sched fuel) := rfl

/-- Frame of one attempt: the fields of the engine state an attempt never
writes. -/
theorem runIteration_frame {τ : Type} (E : Env τ) (task : TrackerTask) (s : Sys τ) :
    (runIteration E task s).1.retryCountMap = s.retryCountMap ∧
    (runIteration E task s).1.skippedTasks = s.skippedTasks ∧
    (runIteration E task s).1.shouldStop = s.shouldStop ∧
    (runIteration E task s).1.state.status = s.state.status ∧
    (runIteration E task s).1.state.currentIteration = s.state.currentIteration + 1 ∧
    (runIteration E task s).1.state.iterations = s.state.iterations ∧
    (runIteration E task s).1.state.tasksCompleted = s.state.tasksCompleted ∧
    (runIteration E task s).1.tick = s.tick ∧
    (runIteration E task s).1.currentExecution = s.currentExecution := by
  cases hr : E.render (s.state.currentIteration + 1) with
  | error msg => simp [runIteration, emit, hr]
  | ok rr =>
    cases ha : E.agent (s.state.currentIteration + 1) with
    | error msg => simp [runIteration, emit, hr, ha]
    | ok a =>
      simp only [runIteration, emit, hr, ha]
      split <;> split <;> split <;> simp

/-- Event bookkeeping of one attempt: it emits exactly one
iteration:started event and none of the failure-policy or engine
lifecycle events. -/
theorem runIteration_counts {τ : Type} (E : Env τ) (task : TrackerTask) (s : Sys τ) :
    (runIteration E task s).1.events.countP isRetryingEv = s.events.countP isRetryingEv ∧
    (runIteration E task s).1.events.countP isSkippedEv = s.events.countP isSkippedEv ∧
    (runIteration E task s).1.events.countP (isFailedEv .retry) =
      s.events.countP (isFailedEv .retry) ∧
    (runIteration E task s).1.events.countP (isFailedEv .skip) =
      s.events.countP (isFailedEv .skip) ∧
    (runIteration E task s).1.events.countP (isFailedEv .abort) =
      s.events.countP (isFailedEv .abort) ∧
    (runIteration E task s).1.events.countP isStartedEv = s.events.countP isStartedEv + 1 ∧
    (runIteration E task s).1.events.countP isPausedEv = s.events.countP isPausedEv ∧
    (runIteration E task s).1.events.countP isStoppedEv = s.events.countP isStoppedEv ∧
    (runIteration E task s).1.events.countP isResumedEv = s.events.countP isResumedEv := by
  cases hr : E.render (s.state.currentIteration + 1) with
  | error msg =>
    simp [runIteration, emit, hr, List.countP_append, List.countP_cons,
      isRetryingEv, isSkippedEv, isFailedEv, isStartedEv, isPausedEv, isStoppedEv, isResumedEv]
  | ok rr =>
    cases ha : E.agent (s.state.currentIteration + 1) with
    | error msg =>
      simp [runIteration, emit, hr, ha, List.countP_append, List.countP_cons,
        isRetryingEv, isSkippedEv, isFailedEv, isStartedEv, isPausedEv, isStoppedEv, isResumedEv]
    | ok a =>
      simp only [runIteration, emit, hr, ha]
      split <;> split <;> split <;>
        simp [List.countP_append, List.countP_cons,
          isRetryingEv, isSkippedEv, isFailedEv, isStartedEv, isPausedEv, isStoppedEv,
          isResumedEv]

/-- Counter bookkeeping of the error-handling wrapper body, generic in
what the recursive re-entry does: if the re-entry preserves the
counter-to-started-events correspondence, so does the whole body. -/
theorem wehStep_counter {τ : Type} (E : Env τ) (task : TrackerTask)
    (recur : Sys τ → IterationResult → Sys τ × Except String IterationResult)
    (hrec : ∀ (X s : Sys τ) (r : IterationResult),
      X.state.currentIteration = s.state.currentIteration + 1 →
      X.events.countP isStartedEv = s.events.countP isStartedEv + 1 →
      (recur X r).1.state.currentIteration + s.events.countP isStartedEv
        = s.state.currentIteration + (recur X r).1.events.countP isStartedEv)
    (s : Sys τ) :
    (wehStep E task recur s).1.state.currentIteration + s.events.countP isStartedEv
      = s.state.currentIteration + (wehStep E task recur s).1.events.countP isStartedEv := by
  have hfr := runIteration_frame E task s
  have hct := runIteration_counts E task s
  cases hIt : runIteration E task s with
  | mk s1 exc =>
    simp only [hIt] at hfr hct
    obtain ⟨-, -, -, -, hci, -, -, -, -⟩ := hfr
    obtain ⟨-, -, -, -, -, c6, -, -, -⟩ := hct
    cases exc with
    | error msg =>
      simp only [wehStep, hIt]
      omega
    | ok result =>
      simp only [wehStep, hIt]
      split
      · split
        · dsimp only
          omega
        · dsimp only
          omega
      · split
        · split
          · split
            · dsimp only
              simp [emit, List.countP_append, List.countP_cons, isStartedEv]
              omega
            · apply hrec
              · dsimp only
                simp [emit]
                omega
              · dsimp only
                simp [emit, List.countP_append, List.countP_cons, isStartedEv]
                omega
          · dsimp only
            simp [emit, List.countP_append, List.countP_cons, isStartedEv]
            omega
        · dsimp only
          simp [emit, List.countP_append, List.countP_cons, isStartedEv]
          omega
        · dsimp only
          simp [emit, List.countP_append, List.countP_cons, isStartedEv]
          omega

/-- Counter-to-attempts correspondence for the full wrapper at any
fuel. -/
theorem weh_counter {τ : Type} (E : Env τ) (task : TrackerTask) :
    ∀ (fuel : Nat) (s : Sys τ),
      (runIterationWEH E task fuel s).1.state.currentIteration +
        s.events.countP isStartedEv
      = s.state.currentIteration +
        (runIterationWEH E task fuel s).1.events.countP isStartedEv := by
  intro fuel
  induction fuel with
  | zero =>
    intro s
    rw [weh_zero]
    refine wehStep_counter E task _ ?_ s
    intro X s r h1 h2
    dsimp only
    omega
  | succ f ih =>
    intro s
    rw [weh_succ]
    refine wehStep_counter E task _ ?_ s
    intro X s2 r h1 h2
    have := ih X
    omega

/-- C4: the iteration counter starts at 0 in the constructed engine
state, every attempt increments it by exactly 1 at its start, and over
any wrapper run (retries of the same task included) the counter
increases by exactly the number of attempts performed, attempts being
counted by their iteration:started events (each attempt emits exactly
one, by runIteration_counts). -/
theorem c4_counter_strictly_increasing {τ : Type} (E : Env τ) (task : TrackerTask)
    (s : Sys τ) (fuel : Nat) :
    constructorState.currentIteration = 0 ∧
    (runIteration E task s).1.state.currentIteration = s.state.currentIteration + 1 ∧
    ((runIterationWEH E task fuel s).1.state.currentIteration +
        s.events.countP isStartedEv
      = s.state.currentIteration +
        (runIterationWEH E task fuel s).1.events.countP isStartedEv) :=
  ⟨rfl, (runIteration_frame E task s).2.2.2.2.1, weh_counter E task fuel s⟩

/-- C8: start() fails fast with the invalid-state error whenever the
status is not idle, and with the not-initialized error when no agent or
tracker is bound; in either error case the returned engine state
(status, counters, history, everything) is exactly the input state. -/
theorem c8_start_fails_fast {τ : Type} (E : Env τ) (sched : Schedule) (fuel : Nat)
    (s : Sys τ) :
    (s.state.status ≠ .idle →
      start E sched fuel s =
        (s, .error ("Cannot start engine in " ++ s.state.status.name ++ " state"))) ∧
    (s.state.status = .idle → ¬(s.agentBound = true ∧ s.trackerBound = true) →
      start E sched fuel s = (s, .error "Engine not initialized")) := by
  constructor
  · intro h
    simp [start, h]
  · intro h1 h2
    simp [start, h1, h2]

/-- Witness for C8 at concrete inputs: starting a running engine and
starting an uninitialized idle engine both fail and change nothing. -/
theorem c8_witness :
    start envRetry2 schedNone 5 sysRun =
      (sysRun, .error ("Cannot start engine in " ++ sysRun.state.status.name ++ " state")) ∧
    start envRetry2 schedNone 5 sysNoAgent = (sysNoAgent, .error "Engine not initialized") :=
  ⟨(c8_start_fails_fast envRetry2 schedNone 5 sysRun).1 (by decide),
   (c8_start_fails_fast envRetry2 schedNone 5 sysNoAgent).2 rfl (by decide)⟩

/-- C10: stop() called while the engine is idle (no loop running, no
execution in flight) still flips the status to stopping, emits
engine:stopped with reason interrupted, interrupts nothing, and since
only start()'s loop exit resets the status to idle while start()
refuses any non-idle status leaving the state unchanged, the engine
stays in stopping forever: every subsequent start() fails and pause and
resume are no-ops, so the engine object is unusable. -/
theorem c10_stop_while_idle_bricks {τ : Type} (s : Sys τ)
    (_hidle : s.state.status = .idle) (hnoexec : s.currentExecution = false) :
    (stop s).state.status = .stopping ∧
    (stop s).interruptCalls = s.interruptCalls ∧
    (stop s).events = s.events ++
      [.engine_stopped .interrupted s.state.currentIteration s.state.tasksCompleted] ∧
    (∀ (E : Env τ) (sched : Schedule) (fuel : Nat),
      start E sched fuel (stop s) =
        (stop s, .error ("Cannot start engine in " ++ EngineStatus.stopping.name ++ " state"))) ∧
    ("Cannot start engine in " ++ EngineStatus.stopping.name ++ " state") =
      "Cannot start engine in stopping state" ∧
    pause (stop s) = stop s ∧
    resume (stop s) = stop s := by
  have hs : (stop s).state.status = .stopping := by
    simp [stop, emit, hnoexec]
  refine ⟨hs, ?_, ?_, ?_, by decide, ?_, ?_⟩
  · simp [stop, emit, hnoexec]
  · simp [stop, emit, hnoexec]
  · intro E sched fuel
    simp [start, hs]
  · simp [pause, hs]
  · simp [resume, hs]

/-- Witness for C10 at a concrete input: stopping the freshly
initialized idle engine. -/
theorem c10_witness :
    (stop (sysInit [simpleT0])).state.status = .stopping ∧
    (stop (sysInit [simpleT0])).interruptCalls = (sysInit [simpleT0]).interruptCalls ∧
    (stop (sysInit [simpleT0])).events = (sysInit [simpleT0]).events ++
      [.engine_stopped .interrupted (sysInit [simpleT0]).state.currentIteration
        (sysInit [simpleT0]).state.tasksCompleted] ∧
    start envRetry2 schedNone 5 (stop (sysInit [simpleT0])) =
      (stop (sysInit [simpleT0]),
       .error ("Cannot start engine in " ++ EngineStatus.stopping.name ++ " state")) ∧
    pause (stop (sysInit [simpleT0])) = stop (sysInit [simpleT0]) ∧
    resume (stop (sysInit [simpleT0])) = stop (sysInit [simpleT0]) := by
  have h := c10_stop_while_idle_bricks (sysInit [simpleT0]) rfl rfl
  exact ⟨h.1, h.2.1, h.2.2.1, h.2.2.2.1 envRetry2 schedNone 5, h.2.2.2.2.2.1, h.2.2.2.2.2.2⟩

/-- The pause checkpoint is transparent when no pause is pending. -/
theorem pauseGate_notPausing {τ : Type} (sched : Schedule) (fuel : Nat) (s : Sys τ)
    (h : s.state.status ≠ .pausing) : pauseGate sched fuel s = .inr s := by
  simp [pauseGate, h]

/-- A scheduled external call other than pause never puts the engine into
pausing and never emits an engine:paused event. -/
theorem applyExt_noPause {τ : Type} (c : ExtCall) (hc : c ≠ .pauseCall) (s : Sys τ)
    (h : s.state.status ≠ .pausing) :
    (applyExt c s).state.status ≠ .pausing ∧
    (applyExt c s).events.countP isPausedEv = s.events.countP isPausedEv := by
  cases c with
  | pauseCall => exact absurd rfl hc
  | resumeCall =>
    constructor
    · simp only [applyExt, resume]
      split
      · simp
      · split
        · exact h
        · simp
    · simp only [applyExt, resume]
      split
      · rfl
      · split <;> rfl
  | stopCall =>
    constructor
    · simp only [applyExt, stop, emit]
      split <;> simp
    · simp only [applyExt, stop, emit]
      split <;>
        simp [List.countP_append, List.countP_cons, isPausedEv]
  | noCall => exact ⟨h, rfl⟩

/-- Same, lifted to the suspension-point consumer. -/
theorem consumeTick_noPause {τ : Type} (sched : Schedule) (s : Sys τ)
    (hsched : ∀ t, sched t ≠ .pauseCall) (h : s.state.status ≠ .pausing) :
    (consumeTick sched s).state.status ≠ .pausing ∧
    (consumeTick sched s).events.countP isPausedEv = s.events.countP isPausedEv := by
  exact applyExt_noPause (sched s.tick) (hsched s.tick) { s with tick := s.tick + 1 } h

/-- The wrapper body preserves the lifecycle status and emits no
engine:paused event, generically in a recursion that does the same. -/
theorem wehStep_preserve {τ : Type} (E : Env τ) (task : TrackerTask)
    (recur : Sys τ → IterationResult → Sys τ × Except String IterationResult)
    (hrec : ∀ (X s2 : Sys τ) (r : IterationResult),
      X.state.status = s2.state.status →
      X.events.countP isPausedEv = s2.events.countP isPausedEv →
      (recur X r).1.state.status = s2.state.status ∧
      (recur X r).1.events.countP isPausedEv = s2.events.countP isPausedEv)
    (s : Sys τ) :
    (wehStep E task recur s).1.state.status = s.state.status ∧
    (wehStep E task recur s).1.events.countP isPausedEv = s.events.countP isPausedEv := by
  have hfr := runIteration_frame E task s
  have hct := runIteration_counts E task s
  cases hIt : runIteration E task s with
  | mk s1 exc =>
    simp only [hIt] at hfr hct
    obtain ⟨-, -, -, hstat, -, -, -, -, -⟩ := hfr
    obtain ⟨-, -, -, -, -, -, c7, -, -⟩ := hct
    cases exc with
    | error msg =>
      simp only [wehStep, hIt]
      exact ⟨hstat, c7⟩
    | ok result =>
      simp only [wehStep, hIt]
      split
      · split
        · exact ⟨hstat, c7⟩
        · exact ⟨hstat, c7⟩
      · split
        · split
          · split
            · constructor
              · dsimp only
                exact hstat
              · dsimp only
                simp [emit, List.countP_append, List.countP_cons, isPausedEv]
                omega
            · apply hrec
              · dsimp only
                exact hstat
              · dsimp only
                simp [emit, List.countP_append, List.countP_cons, isPausedEv]
                omega
          · constructor
            · dsimp only
              exact hstat
            · dsimp only
              simp [emit, List.countP_append, List.countP_cons, isPausedEv]
              omega
        · constructor
          · dsimp only
            exact hstat
          · dsimp only
            simp [emit, List.countP_append, List.countP_cons, isPausedEv]
            omega
        · constructor
          · dsimp only
            exact hstat
          · dsimp only
            simp [emit, List.countP_append, List.countP_cons, isPausedEv]
            omega

/-- The full wrapper preserves the lifecycle status and emits no
engine:paused event. -/
theorem weh_preserve {τ : Type} (E : Env τ) (task : TrackerTask) :
    ∀ (fuel : Nat) (s : Sys τ),
      (runIterationWEH E task fuel s).1.state.status = s.state.status ∧
      (runIterationWEH E task fuel s).1.events.countP isPausedEv =
        s.events.countP isPausedEv := by
  intro fuel
  induction fuel with
  | zero =>
    intro s
    rw [weh_zero]
    refine wehStep_preserve E task _ ?_ s
    intro X s2 r h1 h2
    exact ⟨h1, h2⟩
  | succ f ih =>
    intro s
    rw [weh_succ]
    refine wehStep_preserve E task _ ?_ s
    intro X s2 r h1 h2
    obtain ⟨g1, g2⟩ := ih X
    exact ⟨g1.trans h1, g2.trans h2⟩

/-- On a schedule without pause calls, the loop never emits an
engine:paused event once no pause is pending. -/
theorem runLoop_noPause {τ : Type} (E : Env τ) (sched : Schedule)
    (hsched : ∀ t, sched t ≠ .pauseCall) :
    ∀ (fuel : Nat) (s : Sys τ), s.state.status ≠ .pausing →
      (runLoop E sched fuel s).1.events.countP isPausedEv =
        s.events.countP isPausedEv := by
  intro fuel
  induction fuel with
  | zero => intro s _; rfl
  | succ f ih =>
    intro s h
    rw [runLoop_succ]
    simp only [loopStep, pauseGate_notPausing sched f s h]
    split
    · rfl
    · split
      · simp [emit, List.countP_append, List.countP_cons, isPausedEv]
      · split
        · simp [emit, List.countP_append, List.countP_cons, isPausedEv]
        · split
          · simp [emit, List.countP_append, List.countP_cons, isPausedEv]
          · rename_i task hTask
            obtain ⟨ht1, ht2⟩ := consumeTick_noPause sched s hsched h
            obtain ⟨hw1, hw2⟩ := weh_preserve E task
              (E.config.errorHandling.maxRetries + 1) (consumeTick sched s)
            split
            · rename_i sW msg heq
              rw [heq] at hw2
              exact hw2.trans ht2
            · rename_i sW result heq
              rw [heq] at hw1 hw2
              dsimp only at hw1 hw2
              have hWstat : sW.state.status ≠ .pausing := by
                rw [hw1]; exact ht1
              have hWcnt : List.countP isPausedEv sW.events =
                  List.countP isPausedEv s.events := hw2.trans ht2
              split
              · simp [emit, List.countP_append, List.countP_cons, isPausedEv, hWcnt]
              · split
                · obtain ⟨hu1, hu2⟩ := consumeTick_noPause sched
                    { sW with sessionCalls := sW.sessionCalls ++
                      [SessionCall.updateSessionIteration sW.state.currentIteration
                        sW.state.tasksCompleted] } hsched hWstat
                  rw [ih _ hu1, hu2]
                  exact hWcnt
                · rw [ih { sW with sessionCalls := sW.sessionCalls ++
                      [SessionCall.updateSessionIteration sW.state.currentIteration
                        sW.state.tasksCompleted] } hWstat]
                  exact hWcnt

/-- C7: resume() called while the engine is pausing cancels the pending
pause: the status goes straight back to running with nothing else
changed and no event emitted, and, as long as no new pause request
arrives, the continuing loop never emits an engine:paused event for the
cancelled request; pause() from any state other than running and
resume() from any state other than pausing or paused are no-ops that
change nothing. -/
theorem c7_resume_cancels_pending_pause {τ : Type} (E : Env τ) (sched : Schedule)
    (s : Sys τ) :
    (s.state.status = .pausing →
      resume s = { s with state := { s.state with status := .running } }) ∧
    (s.state.status ≠ .running → pause s = s) ∧
    (s.state.status ≠ .pausing → s.state.status ≠ .paused → resume s = s) ∧
    (s.state.status = .pausing → (∀ t, sched t ≠ .pauseCall) → ∀ fuel : Nat,
      (runLoop E sched fuel (resume s)).1.events.countP isPausedEv =
        s.events.countP isPausedEv) := by
  refine ⟨?_, ?_, ?_, ?_⟩
  · intro h
    simp [resume, h]
  · intro h
    simp [pause, h]
  · intro h1 h2
    simp [resume, h1, h2]
  · intro h hsched fuel
    have hres : (resume s).state.status ≠ .pausing := by
      simp [resume, h]
    rw [runLoop_noPause E sched hsched fuel (resume s) hres]
    simp [resume, h]

/-- Witness for C7 at concrete inputs: cancelling a pending pause on the
pausing fixture, no-op pause on the idle fixture, no-op resume on the
running fixture, and a pause-free 4-cycle loop run after the
cancellation emitting no engine:paused event. -/
theorem c7_witness :
    resume sysPausing =
      { sysPausing with state := { sysPausing.state with status := .running } } ∧
    pause (sysInit [simpleT0]) = sysInit [simpleT0] ∧
    resume sysRun = sysRun ∧
    (runLoop envRetry2 schedNone 4 (resume sysPausing)).1.events.countP isPausedEv =
      sysPausing.events.countP isPausedEv := by
  obtain ⟨a, -, -, d⟩ := c7_resume_cancels_pending_pause envRetry2 schedNone sysPausing
  refine ⟨a rfl, ?_, ?_, d rfl (fun t => by simp [schedNone]) 4⟩
  · exact (c7_resume_cancels_pending_pause envRetry2 schedNone
      (sysInit [simpleT0])).2.1 (by decide)
  · exact (c7_resume_cancels_pending_pause envRetry2 schedNone sysRun).2.2.1
      (by decide) (by decide)

/-- A clean successful attempt (agent resolves, not interrupted, status
completed): the attempt returns the explicit completed result, its last
emitted event is iteration:completed of that result, and it emits no
engine:paused event. -/
theorem runIteration_success {τ : Type} (E : Env τ) (task : TrackerTask) (s : Sys τ)
    (rr : RenderResult) (a : AgentResult)
    (hr : E.render (s.state.currentIteration + 1) = .ok rr)
    (ha : E.agent (s.state.currentIteration + 1) = .ok a)
    (hint : a.interrupted = false) (hstat : a.status = AgentStatus.completed) :
    (runIteration E task s).2 = .ok
      { iteration := s.state.currentIteration + 1, status := .completed, task := task,
        agentResult := some a, taskCompleted := true,
        promiseComplete := promiseCompleteTest a.stdout, error := none } ∧
    (runIteration E task s).1.events.getLast? = some (.iteration_completed
      { iteration := s.state.currentIteration + 1, status := .completed, task := task,
        agentResult := some a, taskCompleted := true,
        promiseComplete := promiseCompleteTest a.stdout, error := none }) := by
  constructor
  · simp [runIteration, emit, hr, ha, hint, hstat]
  · simp only [runIteration, emit, hr, ha, hint, hstat]
    split <;> split <;>
      simp [hstat, List.getLast?_concat]

/-- The wrapper body on a clean successful attempt: it returns the
completed result, appends exactly the attempt's events (ending in
iteration:completed), emits no engine:paused event, preserves status,
stop flag and tick, bumps the counter by one and the completed-task
counter by one. -/
theorem wehStep_success {τ : Type} (E : Env τ) (task : TrackerTask) (s : Sys τ)
    (recur : Sys τ → IterationResult → Sys τ × Except String IterationResult)
    (rr : RenderResult) (a : AgentResult)
    (hr : E.render (s.state.currentIteration + 1) = .ok rr)
    (ha : E.agent (s.state.currentIteration + 1) = .ok a)
    (hint : a.interrupted = false) (hstat : a.status = AgentStatus.completed) :
    ∃ res : IterationResult,
      (wehStep E task recur s).2 = .ok res ∧
      res.status = .completed ∧
      res.iteration = s.state.currentIteration + 1 ∧
      res.taskCompleted = true ∧
      (wehStep E task recur s).1.events.getLast? = some (.iteration_completed res) ∧
      (wehStep E task recur s).1.events.countP isPausedEv = s.events.countP isPausedEv ∧
      (wehStep E task recur s).1.state.status = s.state.status ∧
      (wehStep E task recur s).1.shouldStop = s.shouldStop ∧
      (wehStep E task recur s).1.state.currentIteration = s.state.currentIteration + 1 ∧
      (wehStep E task recur s).1.state.tasksCompleted = s.state.tasksCompleted + 1 ∧
      (wehStep E task recur s).1.tick = s.tick ∧
      (wehStep E task recur s).1.currentExecution = s.currentExecution := by
  obtain ⟨hres, hlast⟩ := runIteration_success E task s rr a hr ha hint hstat
  obtain ⟨-, -, hstop2, hstat2, hci, -, htc, htick, hexec⟩ := runIteration_frame E task s
  have hcnt := (runIteration_counts E task s).2.2.2.2.2.2.1
  cases hIt : runIteration E task s with
  | mk s1 exc =>
    simp only [hIt] at hres hlast hstop2 hstat2 hci htc htick hexec hcnt
    subst hres
    refine ⟨{ iteration := s.state.currentIteration + 1, status := .completed, task := task,
              agentResult := some a, taskCompleted := true,
              promiseComplete := promiseCompleteTest a.stdout, error := none },
            ?_, rfl, rfl, rfl, ?_, ?_, ?_, ?_, ?_, ?_, ?_, ?_⟩ <;>
      simp [wehStep, hIt, hlast, hcnt, hstop2, hstat2, hci, htc, htick, hexec]

/-- The full wrapper on a clean successful attempt, any fuel. -/
theorem weh_success {τ : Type} (E : Env τ) (task : TrackerTask) (s : Sys τ) (fuel : Nat)
    (rr : RenderResult) (a : AgentResult)
    (hr : E.render (s.state.currentIteration + 1) = .ok rr)
    (ha : E.agent (s.state.currentIteration + 1) = .ok a)
    (hint : a.interrupted = false) (hstat : a.status = AgentStatus.completed) :
    ∃ res : IterationResult,
      (runIterationWEH E task fuel s).2 = .ok res ∧
      res.status = .completed ∧
      res.iteration = s.state.currentIteration + 1 ∧
      res.taskCompleted = true ∧
      (runIterationWEH E task fuel s).1.events.getLast? = some (.iteration_completed res) ∧
      (runIterationWEH E task fuel s).1.events.countP isPausedEv =
        s.events.countP isPausedEv ∧
      (runIterationWEH E task fuel s).1.state.status = s.state.status ∧
      (runIterationWEH E task fuel s).1.shouldStop = s.shouldStop ∧
      (runIterationWEH E task fuel s).1.state.currentIteration =
        s.state.currentIteration + 1 ∧
      (runIterationWEH E task fuel s).1.state.tasksCompleted =
        s.state.tasksCompleted + 1 ∧
      (runIterationWEH E task fuel s).1.tick = s.tick ∧
      (runIterationWEH E task fuel s).1.currentExecution = s.currentExecution := by
  cases fuel with
  | zero =>
    rw [weh_zero]
    exact wehStep_success E task s _ rr a hr ha hint hstat
  | succ f =>
    rw [weh_succ]
    exact wehStep_success E task s _ rr a hr ha hint hstat

theorem pollPaused_succ {τ : Type} (sched : Schedule) (f : Nat) (s : Sys τ) :
    pollPaused sched (f + 1) s =
      if s.state.status = .paused ∧ s.shouldStop = false then
        pollPaused sched f (consumeTick sched s)
      else s := rfl

theorem pollPaused_notPaused {τ : Type} (sched : Schedule) (fuel : Nat) (s : Sys τ)
    (h : s.state.status ≠ .paused) : pollPaused sched fuel s = s := by
  cases fuel with
  | zero => rfl
  | succ f =>
    rw [pollPaused_succ]
    simp [h]

/-- C6: pause() while running flips the status to pausing immediately,
emitting nothing; the paused transition and its event happen only at the
loop checkpoint after the in-flight iteration finishes.  With the pause
request arriving at the attempt's suspension point and the operator
stopping during the paused wait, the final trace is the attempt's trace
P, whose last event is the iteration:completed event, followed directly
by the engine:paused event: the paused event is strictly ordered after
the iteration's completed event. -/
theorem c6_paused_event_after_iteration_completed {τ : Type} (E : Env τ)
    (sched : Schedule) (s : Sys τ) (task : TrackerTask) (rr : RenderResult)
    (a : AgentResult) (f : Nat)
    (hrun : s.state.status = .running)
    (hstop : s.shouldStop = false)
    (hexec : s.currentExecution = false)
    (hmax : ¬(0 < E.config.maxIterations ∧
      E.config.maxIterations ≤ s.state.currentIteration))
    (hcomplete : E.T.isComplete s.tracker = false)
    (htask : getNextAvailableTask E.T s = some task)
    (hsched0 : sched s.tick = .pauseCall)
    (hsched1 : sched (s.tick + 1) = .stopCall)
    (hdelay : E.config.iterationDelay = 0)
    (hr : E.render (s.state.currentIteration + 1) = .ok rr)
    (ha : E.agent (s.state.currentIteration + 1) = .ok a)
    (hint : a.interrupted = false) (hstat : a.status = AgentStatus.completed) :
    pause s = { s with state := { s.state with status := .pausing } } ∧
    ∃ (P : List EngineEvent) (res : IterationResult),
      (runLoop E sched (f + 3) s).1.events =
        P ++ [.engine_paused (s.state.currentIteration + 1),
              .engine_stopped .interrupted (s.state.currentIteration + 1)
                (s.state.tasksCompleted + 1)] ∧
      P.getLast? = some (.iteration_completed res) ∧
      res.iteration = s.state.currentIteration + 1 ∧
      res.status = .completed ∧
      P.countP isPausedEv = s.events.countP isPausedEv := by
  have hs1 : consumeTick sched s =
      { s with state := { s.state with status := .pausing }, tick := s.tick + 1 } := by
    simp [consumeTick, hsched0, applyExt, pause, hrun]
  constructor
  · simp [pause, hrun]
  · obtain ⟨res, w1, w2, w3, w4, w5, w6, w7, w8, w9, w10, w11, w12⟩ :=
      weh_success E task
        { s with state := { s.state with status := .pausing }, tick := s.tick + 1 }
        (E.config.errorHandling.maxRetries + 1) rr a hr ha hint hstat
    cases hW : runIterationWEH E task (E.config.errorHandling.maxRetries + 1)
        { s with state := { s.state with status := .pausing }, tick := s.tick + 1 } with
    | mk sW exc =>
      simp only [hW] at w1 w5 w6 w7 w8 w9 w10 w11 w12
      subst w1
      have hWstop : sW.shouldStop = false := by simpa [hstop] using w8
      have hWstat : sW.state.status = .pausing := by simpa using w7
      have hWci : sW.state.currentIteration = s.state.currentIteration + 1 := by
        simpa using w9
      have hWtc : sW.state.tasksCompleted = s.state.tasksCompleted + 1 := by
        simpa using w10
      have hWtick : sW.tick = s.tick + 1 := by simpa using w11
      have hWexec : sW.currentExecution = false := by simpa [hexec] using w12
      have hWev : sW.events.countP isPausedEv = s.events.countP isPausedEv := by
        simpa using w6
      have hres3 : res.iteration = s.state.currentIteration + 1 := by simpa using w3
      refine ⟨sW.events, res, ?_, w5, hres3, w2, hWev⟩
      rw [show f + 3 = (f + 2) + 1 from rfl, runLoop_succ]
      simp only [loopStep, hstop, Bool.false_eq_true, if_false]
      rw [pauseGate_notPausing sched (f + 2) s (by simp [hrun])]
      simp only [hmax, if_false, hcomplete, Bool.false_eq_true, htask]
      rw [hs1, hW]
      simp [w2, hdelay]
      rw [show f + 2 = (f + 1) + 1 from rfl, runLoop_succ]
      simp [loopStep, pauseGate, emit, pollPaused_succ, pollPaused_notPaused, consumeTick,
        applyExt, stop, hWstop, hWstat, hWci, hWtc, hWtick, hWexec, hsched1]

/-- Witness for C6 at concrete inputs: pause arriving during iteration 1
of the one-task engine, stop during the paused wait; the paused event
follows directly after the trace ending in the iteration:completed
event. -/
theorem c6_witness :
    pause sysRun = { sysRun with state := { sysRun.state with status := .pausing } } ∧
    ∃ (P : List EngineEvent) (res : IterationResult),
      (runLoop envCompleted schedPauseThenStop 3 sysRun).1.events =
        P ++ [.engine_paused 1, .engine_stopped .interrupted 1 1] ∧
      P.getLast? = some (.iteration_completed res) ∧
      res.iteration = 1 ∧
      res.status = .completed ∧
      P.countP isPausedEv = sysRun.events.countP isPausedEv := by
  have h := c6_paused_event_after_iteration_completed envCompleted schedPauseThenStop
    sysRun task0 rrOk aCompleted 0 rfl rfl rfl (by decide) (by decide) (by decide)
    (by decide) (by decide) rfl rfl rfl rfl rfl
  simpa using h

/-- A failing attempt (agent throws, or resolves failed and
uninterrupted) produces a result with status failed. -/
theorem runIteration_failed_res {τ : Type} (E : Env τ) (task : TrackerTask) (s : Sys τ)
    (rr : RenderResult)
    (hr : E.render (s.state.currentIteration + 1) = .ok rr)
    (hfail : FailsAt E (s.state.currentIteration + 1)) :
    ∃ res : IterationResult, (runIteration E task s).2 = .ok res ∧
      res.status = .failed := by
  unfold FailsAt at hfail
  cases ha : E.agent (s.state.currentIteration + 1) with
  | error msg =>
    refine ⟨{ iteration := s.state.currentIteration + 1, status := .failed, task := task,
              agentResult := none, taskCompleted := false, promiseComplete := false,
              error := some msg }, ?_, rfl⟩
    simp [runIteration, emit, hr, ha]
  | ok a =>
    rw [ha] at hfail
    obtain ⟨h1, h2⟩ := hfail
    refine ⟨{ iteration := s.state.currentIteration + 1, status := .failed, task := task,
              agentResult := some a,
              taskCompleted := promiseCompleteTest a.stdout ||
                decide (a.status = AgentStatus.completed),
              promiseComplete := promiseCompleteTest a.stdout, error := none }, ?_, rfl⟩
    simp [runIteration, emit, hr, ha, h1, h2]

/-- The wrapper body under the abort strategy on a failing attempt:
exactly one iteration:failed action=abort event, no retrying and no
skipped event, skipped set and retry counters untouched, counter bumped
once, completed-count unchanged, and the failed result returned. -/
theorem wehStep_abort {τ : Type} (E : Env τ) (task : TrackerTask)
    (recur : Sys τ → IterationResult → Sys τ × Except String IterationResult)
    (s : Sys τ) (rr : RenderResult)
    (hstrat : E.config.errorHandling.strategy = .abort)
    (hr : E.render (s.state.currentIteration + 1) = .ok rr)
    (hfail : FailsAt E (s.state.currentIteration + 1)) :
    ∃ res : IterationResult,
      (wehStep E task recur s).2 = .ok res ∧
      res.status = .failed ∧
      (wehStep E task recur s).1.events.countP (isFailedEv .abort) =
        s.events.countP (isFailedEv .abort) + 1 ∧
      (wehStep E task recur s).1.events.countP isRetryingEv =
        s.events.countP isRetryingEv ∧
      (wehStep E task recur s).1.events.countP isSkippedEv =
        s.events.countP isSkippedEv ∧
      (wehStep E task recur s).1.skippedTasks = s.skippedTasks ∧
      (wehStep E task recur s).1.retryCountMap = s.retryCountMap ∧
      (wehStep E task recur s).1.state.currentIteration = s.state.currentIteration + 1 ∧
      (wehStep E task recur s).1.state.tasksCompleted = s.state.tasksCompleted ∧
      (wehStep E task recur s).1.state.status = s.state.status ∧
      (wehStep E task recur s).1.shouldStop = s.shouldStop ∧
      (wehStep E task recur s).1.tick = s.tick := by
  obtain ⟨res, hres, hstatus⟩ := runIteration_failed_res E task s rr hr hfail
  obtain ⟨hmap, hskip, hstop2, hstat2, hci, -, htc, htick, -⟩ := runIteration_frame E task s
  obtain ⟨c1, c2, -, -, c5, -, -, -, -⟩ := runIteration_counts E task s
  cases hIt : runIteration E task s with
  | mk s1 exc =>
    simp only [hIt] at hres hmap hskip hstop2 hstat2 hci htc htick c1 c2 c5
    subst hres
    refine ⟨res, ?_, hstatus, ?_, ?_, ?_, ?_, ?_, ?_, ?_, ?_, ?_, ?_⟩ <;>
      simp [wehStep, hIt, hstatus, hstrat, emit, List.countP_append, List.countP_cons,
        isFailedEv, isRetryingEv, isSkippedEv, hmap, hskip, hstop2, hstat2, hci, htc,
        htick, c1, c2, c5]

/-- The full wrapper under the abort strategy on a failing attempt, any
fuel: the retry recursion is never entered. -/
theorem weh_abort {τ : Type} (E : Env τ) (task : TrackerTask) (s : Sys τ) (fuel : Nat)
    (rr : RenderResult)
    (hstrat : E.config.errorHandling.strategy = .abort)
    (hr : E.render (s.state.currentIteration + 1) = .ok rr)
    (hfail : FailsAt E (s.state.currentIteration + 1)) :
    ∃ res : IterationResult,
      (runIterationWEH E task fuel s).2 = .ok res ∧
      res.status = .failed ∧
      (runIterationWEH E task fuel s).1.events.countP (isFailedEv .abort) =
        s.events.countP (isFailedEv .abort) + 1 ∧
      (runIterationWEH E task fuel s).1.events.countP isRetryingEv =
        s.events.countP isRetryingEv ∧
      (runIterationWEH E task fuel s).1.events.countP isSkippedEv =
        s.events.countP isSkippedEv ∧
      (runIterationWEH E task fuel s).1.skippedTasks = s.skippedTasks ∧
      (runIterationWEH E task fuel s).1.retryCountMap = s.retryCountMap ∧
      (runIterationWEH E task fuel s).1.state.currentIteration =
        s.state.currentIteration + 1 ∧
      (runIterationWEH E task fuel s).1.state.tasksCompleted = s.state.tasksCompleted ∧
      (runIterationWEH E task fuel s).1.state.status = s.state.status ∧
      (runIterationWEH E task fuel s).1.shouldStop = s.shouldStop ∧
      (runIterationWEH E task fuel s).1.tick = s.tick := by
  cases fuel with
  | zero =>
    rw [weh_zero]
    exact wehStep_abort E task _ s rr hstrat hr hfail
  | succ f =>
    rw [weh_succ]
    exact wehStep_abort E task _ s rr hstrat hr hfail

/-- C5: under the abort strategy, a single failed attempt produces
exactly one iteration:failed action=abort event and no retrying or
skipped event, leaves the skipped set and the retry counters unchanged,
and makes the main loop emit engine:stopped with reason error and exit
after that one attempt (the counter moved by exactly 1 and the loop
returned normally). -/
theorem c5_abort_single_failure_stops {τ : Type} (E : Env τ) (sched : Schedule)
    (s : Sys τ) (task : TrackerTask) (rr : RenderResult) (f : Nat)
    (hstrat : E.config.errorHandling.strategy = .abort)
    (hrun : s.state.status = .running)
    (hstop : s.shouldStop = false)
    (hmax : ¬(0 < E.config.maxIterations ∧
      E.config.maxIterations ≤ s.state.currentIteration))
    (hcomplete : E.T.isComplete s.tracker = false)
    (htask : getNextAvailableTask E.T s = some task)
    (hsched : sched s.tick = .noCall)
    (hr : E.render (s.state.currentIteration + 1) = .ok rr)
    (hfail : FailsAt E (s.state.currentIteration + 1)) :
    (runLoop E sched (f + 1) s).1.events.getLast? =
      some (.engine_stopped .error (s.state.currentIteration + 1)
        s.state.tasksCompleted) ∧
    (runLoop E sched (f + 1) s).1.events.countP (isFailedEv .abort) =
      s.events.countP (isFailedEv .abort) + 1 ∧
    (runLoop E sched (f + 1) s).1.events.countP isRetryingEv =
      s.events.countP isRetryingEv ∧
    (runLoop E sched (f + 1) s).1.events.countP isSkippedEv =
      s.events.countP isSkippedEv ∧
    (runLoop E sched (f + 1) s).1.skippedTasks = s.skippedTasks ∧
    (runLoop E sched (f + 1) s).1.retryCountMap = s.retryCountMap ∧
    (runLoop E sched (f + 1) s).1.state.currentIteration =
      s.state.currentIteration + 1 ∧
    (runLoop E sched (f + 1) s).1.state.tasksCompleted = s.state.tasksCompleted ∧
    (runLoop E sched (f + 1) s).2 = .ok () := by
  have hs1 : consumeTick sched s = { s with tick := s.tick + 1 } := by
    simp [consumeTick, hsched, applyExt]
  obtain ⟨res, w1, w2, w3, w4, w5, w6, w7, w8, w9, w10, w11, w12⟩ :=
    weh_abort E task { s with tick := s.tick + 1 }
      (E.config.errorHandling.maxRetries + 1) rr hstrat hr hfail
  cases hW : runIterationWEH E task (E.config.errorHandling.maxRetries + 1)
      { s with tick := s.tick + 1 } with
  | mk sW exc =>
    simp only [hW] at w1 w3 w4 w5 w6 w7 w8 w9 w10 w11 w12
    subst w1
    have hWab : sW.events.countP (isFailedEv .abort) =
        s.events.countP (isFailedEv .abort) + 1 := by simpa using w3
    have hWre : sW.events.countP isRetryingEv = s.events.countP isRetryingEv := by
      simpa using w4
    have hWsk : sW.events.countP isSkippedEv = s.events.countP isSkippedEv := by
      simpa using w5
    have hWskip : sW.skippedTasks = s.skippedTasks := by simpa using w6
    have hWmap : sW.retryCountMap = s.retryCountMap := by simpa using w7
    have hWci : sW.state.currentIteration = s.state.currentIteration + 1 := by
      simpa using w8
    have hWtc : sW.state.tasksCompleted = s.state.tasksCompleted := by simpa using w9
    rw [runLoop_succ]
    simp only [loopStep, hstop, Bool.false_eq_true, if_false]
    rw [pauseGate_notPausing sched f s (by simp [hrun])]
    simp only [hmax, if_false, hcomplete, Bool.false_eq_true, htask]
    rw [hs1, hW]
    simp [w2, hstrat, emit, List.getLast?_concat, List.countP_append, List.countP_cons,
      isFailedEv, isRetryingEv, isSkippedEv, hWab, hWre, hWsk, hWskip, hWmap, hWci, hWtc]

/-- Witness for C5 at concrete inputs: the always-failing agent under the
abort strategy on the one-task engine. -/
theorem c5_witness :
    (runLoop envAbort schedNone 1 sysRun).1.events.getLast? =
      some (.engine_stopped .error 1 0) ∧
    (runLoop envAbort schedNone 1 sysRun).1.events.countP (isFailedEv .abort) = 1 ∧
    (runLoop envAbort schedNone 1 sysRun).1.events.countP isRetryingEv = 0 ∧
    (runLoop envAbort schedNone 1 sysRun).1.events.countP isSkippedEv = 0 ∧
    (runLoop envAbort schedNone 1 sysRun).1.skippedTasks = sysRun.skippedTasks ∧
    (runLoop envAbort schedNone 1 sysRun).1.retryCountMap = sysRun.retryCountMap ∧
    (runLoop envAbort schedNone 1 sysRun).1.state.currentIteration = 1 ∧
    (runLoop envAbort schedNone 1 sysRun).1.state.tasksCompleted = 0 ∧
    (runLoop envAbort schedNone 1 sysRun).2 = .ok () := by
  have h := c5_abort_single_failure_stops envAbort schedNone sysRun task0 rrOk 0
    rfl rfl rfl (by decide) (by decide) (by decide) rfl rfl ⟨rfl, rfl⟩
  simpa [sysRun, sysInit] using h

theorem mapGet_mapSet_self (m : List (String × Nat)) (k : String) (v : Nat) :
    mapGet (mapSet m k v) k = some v := by
  induction m with
  | nil => simp [mapGet, mapSet]
  | cons p m ih =>
    by_cases h : p.1 = k
    · simp [mapGet, mapSet, h]
    · simp [mapGet, mapSet, h]

theorem mapGet_mapDelete_self (m : List (String × Nat)) (k : String) :
    mapGet (mapDelete m k) k = none := by
  have hfind : (mapDelete m k).find? (fun p => decide (p.1 = k)) = none := by
    rw [List.find?_eq_none]
    intro x hx
    have hmem := (List.mem_filter.mp hx).2
    simpa using hmem
  simp [mapGet, hfind]

theorem mem_setAdd_self (l : List String) (x : String) : x ∈ setAdd l x := by
  by_cases h : x ∈ l <;> simp [setAdd, h]

/-- Task selection never returns a task from the skipped set. -/
theorem findAvailable_not_skipped (skipped : List String) (ready : String → Bool) :
    ∀ (l : List TrackerTask) (t : TrackerTask),
      findAvailable skipped ready l = some t → t.id ∉ skipped := by
  intro l
  induction l with
  | nil =>
    intro t h
    simp [findAvailable] at h
  | cons a l ih =>
    intro t h
    simp only [findAvailable] at h
    split at h
    · exact ih t h
    · split at h
      · rename_i hmem hready
        cases h
        exact hmem
      · exact ih t h

/-- Chaining step of the retry induction: the bundle at the advanced
state (one more recorded failure) yields the bundle at the original
state. -/
theorem weh_retry_chain {τ : Type} (E : Env τ) (task : TrackerTask) (f : Nat)
    (s X : Sys τ) (k : Nat)
    (hspec : RetryExhaustSpec E task f X (k + 1))
    (hciX : X.state.currentIteration = s.state.currentIteration + 1)
    (hreX : X.events.countP isRetryingEv = s.events.countP isRetryingEv + 1)
    (hskX : X.events.countP isSkippedEv = s.events.countP isSkippedEv)
    (hfsX : X.events.countP (isFailedEv .skip) = s.events.countP (isFailedEv .skip))
    (hlenX : X.state.iterations.length = s.state.iterations.length + 1)
    (htcX : X.state.tasksCompleted = s.state.tasksCompleted)
    (hk : k < E.config.errorHandling.maxRetries) :
    (runIterationWEH E task f X).1.state.currentIteration =
      s.state.currentIteration + (E.config.errorHandling.maxRetries - k + 1) ∧
    (runIterationWEH E task f X).1.events.countP isRetryingEv =
      s.events.countP isRetryingEv + (E.config.errorHandling.maxRetries - k) ∧
    (runIterationWEH E task f X).1.events.countP isSkippedEv =
      s.events.countP isSkippedEv + 1 ∧
    (runIterationWEH E task f X).1.events.countP (isFailedEv .skip) =
      s.events.countP (isFailedEv .skip) + 1 ∧
    task.id ∈ (runIterationWEH E task f X).1.skippedTasks ∧
    mapGet (runIterationWEH E task f X).1.retryCountMap task.id = none ∧
    (runIterationWEH E task f X).1.state.iterations.length =
      s.state.iterations.length + (E.config.errorHandling.maxRetries - k + 1) ∧
    (runIterationWEH E task f X).1.state.tasksCompleted = s.state.tasksCompleted ∧
    ∃ res : IterationResult, (runIterationWEH E task f X).2 = .ok res ∧
      res.status = .failed := by
  obtain ⟨g1, g2, g3, g4, g5, g6, g7, g8, g9⟩ := hspec
  refine ⟨?_, ?_, ?_, ?_, g5, g6, ?_, ?_, g9⟩ <;> omega

/-- Under the retry strategy with an always-failing agent and a
non-throwing renderer, the wrapper exhausts the retries and skips the
task, in the precise quantities of RetryExhaustSpec. -/
theorem weh_retry_exhaust {τ : Type} (E : Env τ) (task : TrackerTask)
    (hstrat : E.config.errorHandling.strategy = .retry)
    (hfail : ∀ n, FailsAt E n)
    (hrender : ∀ n, ∃ rr : RenderResult, E.render n = .ok rr) :
    ∀ (fuel : Nat) (s : Sys τ) (k : Nat),
      (mapGet s.retryCountMap task.id).getD 0 = k →
      k ≤ E.config.errorHandling.maxRetries →
      E.config.errorHandling.maxRetries - k ≤ fuel →
      s.shouldStop = false →
      RetryExhaustSpec E task fuel s k := by
  intro fuel
  induction fuel with
  | zero =>
    intro s k hk hkN hfuel hstop
    obtain ⟨rr, hr⟩ := hrender (s.state.currentIteration + 1)
    obtain ⟨res, hres, hstatus⟩ := runIteration_failed_res E task s rr hr
      (hfail (s.state.currentIteration + 1))
    obtain ⟨hmap, hskip2, hstop2, -, hci, hit, htc, -, -⟩ := runIteration_frame E task s
    obtain ⟨c1, c2, c3, c4, -, -, -, -, -⟩ := runIteration_counts E task s
    cases hIt : runIteration E task s with
    | mk s1 exc =>
      simp only [hIt] at hres hmap hskip2 hstop2 hci hit htc c1 c2 c3 c4
      subst hres
      unfold RetryExhaustSpec
      rw [weh_zero]
      simp only [wehStep, hIt]
      rw [if_neg (by simp [hstatus])]
      simp only [hstrat, hmap, hk]
      rw [if_neg (by omega)]
      refine ⟨?_, ?_, ?_, ?_, ?_, ?_, ?_, ?_, ⟨res, rfl, hstatus⟩⟩ <;>
        simp [emit, List.countP_append, List.countP_cons, isRetryingEv, isSkippedEv,
          isFailedEv, mem_setAdd_self, mapGet_mapDelete_self, hci, hit, htc,
          c1, c2, c3, c4] <;>
        omega
  | succ f ih =>
    intro s k hk hkN hfuel hstop
    obtain ⟨rr, hr⟩ := hrender (s.state.currentIteration + 1)
    obtain ⟨res, hres, hstatus⟩ := runIteration_failed_res E task s rr hr
      (hfail (s.state.currentIteration + 1))
    obtain ⟨hmap, hskip2, hstop2, -, hci, hit, htc, -, -⟩ := runIteration_frame E task s
    obtain ⟨c1, c2, c3, c4, -, -, -, -, -⟩ := runIteration_counts E task s
    cases hIt : runIteration E task s with
    | mk s1 exc =>
      simp only [hIt] at hres hmap hskip2 hstop2 hci hit htc c1 c2 c3 c4
      subst hres
      by_cases hlt : k < E.config.errorHandling.maxRetries
      · unfold RetryExhaustSpec
        rw [weh_succ]
        simp only [wehStep, hIt]
        rw [if_neg (by simp [hstatus])]
        simp only [hstrat, hmap, hk]
        rw [if_pos hlt]
        simp only [hstop2, hstop, Bool.false_eq_true, if_false]
        apply weh_retry_chain E task f s _ k
        · exact ih _ (k + 1)
            (by simp [mapGet_mapSet_self])
            (by omega) (by omega)
            (by simp [emit, hstop2, hstop])
        · simp [emit, hci]
        · simp [emit, List.countP_append, List.countP_cons, isRetryingEv, c1]
        · simp [emit, List.countP_append, List.countP_cons, isSkippedEv, c2]
        · simp [emit, List.countP_append, List.countP_cons, isFailedEv, c4]
        · simp [emit, hit]
        · simp [emit, htc]
        · exact hlt
      · unfold RetryExhaustSpec
        rw [weh_succ]
        simp only [wehStep, hIt]
        rw [if_neg (by simp [hstatus])]
        simp only [hstrat, hmap, hk]
        rw [if_neg hlt]
        refine ⟨?_, ?_, ?_, ?_, ?_, ?_, ?_, ?_, ⟨res, rfl, hstatus⟩⟩ <;>
          simp [emit, List.countP_append, List.countP_cons, isRetryingEv, isSkippedEv,
            isFailedEv, mem_setAdd_self, mapGet_mapDelete_self, hci, hit, htc,
            c1, c2, c3, c4] <;>
          omega

/-- C2: under the retry strategy with maximum N and an always-failing
agent, a task with no recorded failures is attempted exactly N + 1
times, producing exactly N retrying events, then one failed action=skip
event and one skipped event; its id is added to the skipped set, its
retry counter is deleted, no task completion is counted, and a task in
the skipped set is never selected again.  In the concrete scenario (one
task T, maxRetries 2, always-failing agent) the full run makes exactly
3 attempts, 2 retrying events, 1 skipped event, then stops with reason
no_tasks and tasksCompleted 0. -/
theorem c2_retry_exhaustion {τ : Type} (E : Env τ) (task : TrackerTask)
    (hstrat : E.config.errorHandling.strategy = .retry)
    (hfail : ∀ n, FailsAt E n)
    (hrender : ∀ n, ∃ rr : RenderResult, E.render n = .ok rr) :
    (∀ (fuel : Nat) (s : Sys τ),
      mapGet s.retryCountMap task.id = none →
      E.config.errorHandling.maxRetries ≤ fuel →
      s.shouldStop = false →
      RetryExhaustSpec E task fuel s 0) ∧
    (∀ (s2 : Sys τ) (t : TrackerTask), task.id ∈ s2.skippedTasks →
      getNextAvailableTask E.T s2 = some t → t.id ≠ task.id) ∧
    ((start envRetry2 schedNone 5 (sysInit [simpleT0])).1.state.tasksCompleted = 0 ∧
     (start envRetry2 schedNone 5 (sysInit [simpleT0])).1.state.currentIteration = 3 ∧
     (start envRetry2 schedNone 5 (sysInit [simpleT0])).1.state.iterations.length = 3 ∧
     (start envRetry2 schedNone 5 (sysInit [simpleT0])).1.events.countP isStartedEv = 3 ∧
     (start envRetry2 schedNone 5 (sysInit [simpleT0])).1.events.countP isRetryingEv = 2 ∧
     (start envRetry2 schedNone 5 (sysInit [simpleT0])).1.events.countP isSkippedEv = 1 ∧
     (start envRetry2 schedNone 5 (sysInit [simpleT0])).1.events.countP
       (isFailedEv .skip) = 1 ∧
     (start envRetry2 schedNone 5 (sysInit [simpleT0])).1.skippedTasks = ["T"] ∧
     (start envRetry2 schedNone 5 (sysInit [simpleT0])).1.retryCountMap = [] ∧
     (start envRetry2 schedNone 5 (sysInit [simpleT0])).1.events.getLast? =
       some (.engine_stopped .no_tasks 3 0)) := by
  refine ⟨?_, ?_, ?_⟩
  · intro fuel s hmap hfuel hstop
    exact weh_retry_exhaust E task hstrat hfail hrender fuel s 0
      (by simp [hmap]) (Nat.zero_le _) (by omega) hstop
  · intro s2 t hmem hsel heq
    exact (findAvailable_not_skipped s2.skippedTasks
      (E.T.isTaskReady s2.tracker) (E.T.getTasks s2.tracker) t hsel) (heq ▸ hmem)
  · decide

/-- Witness for C2 at concrete inputs: the one-task engine with
maxRetries 2 and the always-failing agent, plus a two-task engine where
the skipped task T is passed over in favour of task U. -/
theorem c2_witness :
    RetryExhaustSpec envRetry2 task0 5 sysRun 0 ∧
    taskU.id ≠ task0.id ∧
    (start envRetry2 schedNone 5 (sysInit [simpleT0])).1.events.getLast? =
      some (.engine_stopped .no_tasks 3 0) := by
  have h := c2_retry_exhaustion envRetry2 task0 rfl (fun _ => ⟨rfl, rfl⟩)
    (fun _ => ⟨rrOk, rfl⟩)
  obtain ⟨h1, h2, h3⟩ := h
  refine ⟨h1 5 sysRun rfl (by decide) rfl, h2 sysTwoSkipped taskU (by decide) (by decide), ?_⟩
  exact h3.2.2.2.2.2.2.2.2.2

end RalphTui
